import Mathlib

/-!
Verification development for the coworking-space booking system
(`bot/hndlrs/booking_hndlr.py`, `models/models.py`,
`web/routes/booking_routes.py`).

The Python source is shallowly embedded: database rows become structures,
SQLAlchemy sessions become explicit state passing over a `DB` value,
side-effecting calls (Telegram messages, payment gateway, scheduling
backend) become entries of an `Event` trail, and currency amounts become
rationals.  The payment-gateway adapter (`create_payment`,
`check_payment_status`) and the scheduling-backend adapter (`rubitime`)
are not part of the embedded handler code and are treated as oracles
supplied as parameters, following the external-interface contract.
-/

namespace CoWork

/-! ## Data model (`models/models.py`) -/

/-- Row of the `users` table (the fields the booking flow reads). -/
structure UserRow where
  id : Nat
  telegram_id : Nat
  full_name : Option String
  phone : Option String
  email : Option String
  deriving Repr, DecidableEq

/-- Row of the `tariffs` table. -/
structure TariffRow where
  id : Nat
  name : String
  price : ℚ
  purpose : String
  service_id : Option Nat
  is_active : Bool
  deriving Repr, DecidableEq

/-- Row of the `promocodes` table (the fields the confirmation
notification reads). -/
structure PromocodeRow where
  id : Nat
  name : String
  discount : Nat
  is_active : Bool
  deriving Repr, DecidableEq

/-- Row of the `bookings` table. -/
structure BookingRow where
  id : Nat
  user_id : Nat
  tariff_id : Nat
  visit_date : String
  visit_time : Option String
  duration : Option Nat
  promocode_id : Option Nat
  amount : ℚ
  payment_id : Option String
  paid : Bool
  confirmed : Bool
  rubitime_id : Option Nat
  deriving Repr, DecidableEq

/-- Row of the `notifications` table (the fields `create_booking` sets). -/
structure NotificationRow where
  user_id : Nat
  message : String
  is_read : Bool
  booking_id : Nat
  deriving Repr, DecidableEq

/-- The relational store, with the id the next flushed booking receives. -/
structure DB where
  users : List UserRow
  tariffs : List TariffRow
  promocodes : List PromocodeRow
  bookings : List BookingRow
  notifications : List NotificationRow
  nextBookingId : Nat
  deriving Repr, DecidableEq

/-- `session.query(User).filter_by(telegram_id=tid).first()`. -/
def findUser (db : DB) (tid : Nat) : Option UserRow :=
  db.users.find? (fun u => u.telegram_id == tid)

/-- `session.query(Tariff).filter_by(id=tariff_id, is_active=True).first()`;
`get_active_tariffs()` followed by `next((t for t in tariffs if t.id == tariff_id), None)`
resolves the same row. -/
def findActiveTariff (db : DB) (tariff_id : Nat) : Option TariffRow :=
  db.tariffs.find? (fun t => t.id == tariff_id && t.is_active)

/-! ## Python `or` on numbers (`amount or tariff.price`)

Python's `or` returns the left operand when it is truthy; `None` and `0.0`
are falsy, every other float is truthy. -/

def pyOrAmount (amount : Option ℚ) (price : ℚ) : ℚ :=
  match amount with
  | none => price
  | some a => if a = 0 then price else a

/-- Display of an optional string under Python f-string interpolation
(`None` prints as `"None"`). -/
def optStrDisplay : Option String → String
  | some s => s
  | none => "None"

/-- Display of an optional integer under Python f-string interpolation. -/
def optNatDisplay : Option Nat → String
  | some n => toString n
  | none => "None"

/-- Python `or` on an optional string and a default
(`user.full_name or "Не указано"`): `None` and `""` are falsy. -/
def pyOrStr (s : Option String) (d : String) : String :=
  match s with
  | none => d
  | some x => if x = "" then d else x

/-! ## `create_booking` (`models/models.py` 354-433)

The session is modelled by explicit state passing: every early `return`
after `session.close()` leaves the store unchanged, and the single
`session.commit()` publishes the flushed booking row together with its
notification row.  The `IntegrityError`/`Exception` handlers roll the
session back and leave the store unchanged, which is subsumed by the
error results below. -/

/-- The notification message built by `create_booking`. -/
def booking_notification_message (u : UserRow) (t : TariffRow)
    (visit_date : String) (visit_time : Option String) (duration : Option Nat) : String :=
  "Новая бронь от " ++ pyOrStr u.full_name "пользователя" ++ ": тариф " ++ t.name
    ++ ", дата " ++ visit_date
    ++ (if t.purpose = "Переговорная" then
          ", время " ++ optStrDisplay visit_time ++ ", длительность "
            ++ optNatDisplay duration ++ " ч"
        else "")

/-- The admin-facing summary string returned by `create_booking`. -/
def booking_admin_message (u : UserRow) (t : TariffRow) (telegram_id : Nat)
    (visit_date : String) (visit_time : Option String) (duration : Option Nat) : String :=
  "Новая бронь!\nПользователь: " ++ pyOrStr u.full_name "Не указано"
    ++ " (ID: " ++ toString telegram_id ++ ")\nТариф: " ++ t.name
    ++ " (" ++ toString t.price ++ " ₽)\nДата: " ++ visit_date
    ++ (if t.purpose = "Переговорная" then
          "\nВремя: " ++ optStrDisplay visit_time ++ "\nПродолжительность: "
            ++ optNatDisplay duration ++ " ч"
        else "")

/-- Shallow embedding of `create_booking`.  Returns the created row (or
`none`), the message (error reason on failure, admin summary on success)
and the resulting store. -/
def create_booking (db : DB) (telegram_id : Nat) (tariff_id : Nat)
    (visit_date : String) (visit_time : Option String) (duration : Option Nat)
    (promocode_id : Option Nat) (amount : Option ℚ)
    (paid : Bool) (confirmed : Bool) (payment_id : Option String) :
    Option BookingRow × Option String × DB :=
  match findUser db telegram_id with
  | none => (none, some "Пользователь не найден", db)
  | some user =>
    match findActiveTariff db tariff_id with
    | none => (none, some "Тариф не найден", db)
    | some tariff =>
      let booking : BookingRow :=
        { id := db.nextBookingId
          user_id := user.id
          tariff_id := tariff.id
          visit_date := visit_date
          visit_time := visit_time
          duration := duration
          promocode_id := promocode_id
          amount := pyOrAmount amount tariff.price
          payment_id := payment_id
          paid := paid
          confirmed := confirmed
          rubitime_id := none }
      let notification : NotificationRow :=
        { user_id := user.id
          message := booking_notification_message user tariff visit_date visit_time duration
          is_read := false
          booking_id := booking.id }
      (some booking,
       some (booking_admin_message user tariff telegram_id visit_date visit_time duration),
       { db with
           bookings := db.bookings ++ [booking]
           notifications := db.notifications ++ [notification]
           nextBookingId := db.nextBookingId + 1 })

/-! ## `format_phone_for_rubitime` (`bot/hndlrs/booking_hndlr.py` 442-464) -/

/-- `re.sub(r"[^0-9]", "", phone)`: keep only the decimal digits. -/
def stripNonDigits (phone : String) : String :=
  String.mk (phone.toList.filter Char.isDigit)

/-- Python `s.startswith(p)`. -/
def strStartsWith (s p : String) : Bool :=
  List.isPrefixOf p.toList s.toList

/-- Shallow embedding of `format_phone_for_rubitime`.  An absent phone is
passed as the empty string (Python `not phone`). -/
def format_phone_for_rubitime (phone : String) : String :=
  if phone = "" ∨ phone = "Не указано" then "Не указано"
  else
    let digits := stripNonDigits phone
    if strStartsWith digits "8" ∨ strStartsWith digits "+7" then
      if digits.length ≥ 11 then
        "+7" ++ String.mk (digits.toList.drop (digits.length - 10))
      else "Не указано"
    else "Не указано"

/-! ## The `cancel_booking` ("main menu") handler registration
(`bot/hndlrs/booking_hndlr.py` 180-199)

The decorator passes
`Booking.ENTER_DATE or Booking.ENTER_TIME or Booking.ENTER_DURATION or Booking.ENTER_PROMOCODE`
as the state filter.  An aiogram `State` object defines neither `__bool__`
nor `__len__`, so it is always truthy, and Python's `or` returns its first
operand; the registered filter is therefore a single state. -/

/-- The states of the `Booking` states group. -/
inductive BookingState where
  | SELECT_TARIFF
  | ENTER_DATE
  | ENTER_TIME
  | ENTER_DURATION
  | ENTER_PROMOCODE
  | PAYMENT
  | STATUS_PAYMENT
  deriving Repr, DecidableEq

/-- Python `or` on two aiogram `State` objects: both are truthy, so the
left operand is returned. -/
def pyOrState (a _b : BookingState) : BookingState := a

/-- The state filter actually registered for the `cancel_booking`
("main menu") handler. -/
def cancel_booking_filter : BookingState :=
  pyOrState
    (pyOrState
      (pyOrState BookingState.ENTER_DATE BookingState.ENTER_TIME)
      BookingState.ENTER_DURATION)
    BookingState.ENTER_PROMOCODE

/-- Whether the `cancel_booking` handler fires for a callback query in
state `s` with callback data `d` (`F.data == "main_menu"`). -/
def cancel_booking_fires (s : BookingState) (d : String) : Bool :=
  decide (s = cancel_booking_filter) && (d == "main_menu")

/-! ## Side effects as an event trail

Every externally visible action of a handler run is recorded as an event,
in program order.  `checkStatus` carries the polled result; following the
adapter contract, `check_payment_status` yields a status string or `none`
on a transient gateway error and never raises into the handler. -/

/-- Python truthiness of an optional integer (`if duration`, `if booking.promocode_id`):
`None` and `0` are falsy. -/
def pyTruthyNat : Option Nat → Bool
  | some n => n != 0
  | none => false

inductive Event where
  | checkStatus (payment_id : String) (result : Option String)
  | createBookingCall (paid : Bool) (payment_id : Option String)
  | createPaymentCall (description : String) (amount : ℚ)
  | rubitimeCall
  | sendAdmin (msg : String)
  | answerUser (text : String)
  | editUserMsg (text : String)
  | sleep (seconds : Nat)
  | setState (s : BookingState)
  | spawnPollTask (payment_id : String)
  | cancelTask
  | refundCall (payment_id : String)
  | cancelPaymentCall (payment_id : String)
  | clearState
  deriving Repr, DecidableEq

/-- Modelled from the spec: the scheduling-backend adapter `rubitime`
(`bot/config.py`, not under `src/`) implements
`createRecord(...) -> externalId | failure`; it signals failure by value
(the handlers test `if rubitime_id:`), not by raising.  Its answer is
passed to the finalization functions as a parameter of this type. -/
abbrev RubitimeResult : Type := Option Nat

/-- Modelled from the spec: the payment-gateway adapter
`check_payment_status` (`bot/config.py`, not under `src/`) implements
`checkPaymentStatus(paymentId) -> "succeeded"|"pending"|"canceled"|other`;
transient gateway errors yield a non-terminal answer (`none`) instead of
raising into the caller, and the reconciliation loop's attempt counter
advances on every iteration regardless.  The oracle maps the attempt
index to the polled answer. -/
abbrev PaymentStatusOracle : Type := Nat → Option String

/-- Modelled from the spec: the payment-gateway adapter `create_payment`
(`bot/config.py`, not under `src/`) implements
`createPayment(description, amount) -> (paymentId, checkoutUrl) | failure`;
the handler treats a missing id or url as the failure case. -/
abbrev CreatePaymentResult : Type := Option (String × String)

/-- "Ошибка при создании брони. Попробуйте позже." — the generic error
shown to the user when the finalization `try` block raises. -/
def bookingErrText : String := "Ошибка при создании брони. Попробуйте позже."

/-- "Время оплаты истекло. Попробуйте снова." — the timeout message. -/
def timeoutText : String := "Время оплаты истекло. Попробуйте снова."

/-- "Платёж отменён." — shown on payment cancellation. -/
def canceledText : String := "Платёж отменён."

/-- The confirmation message sent to the user after a successful
finalization (identical text in `handle_free_booking` and
`poll_payment_status`). -/
def booking_success_text (t : TariffRow) (visit_date : String)
    (visit_time : Option String) (duration : Option Nat) : String :=
  "Бронь создана!\nТариф: " ++ t.name ++ "\nДата: " ++ visit_date ++ "\n"
    ++ (if pyTruthyNat duration then
          "Время: " ++ optStrDisplay visit_time ++ "\nПродолжительность: "
            ++ optNatDisplay duration ++ " ч\n"
        else "")
    ++ (if t.purpose = "Переговорная" then "Ожидайте подтверждения."
        else "Бронь подтверждена.")

/-- `booking.rubitime_id = rubitime_id; session.commit()`. -/
def setRubitimeId (db : DB) (bid : Nat) (rid : Nat) : DB :=
  { db with
      bookings := db.bookings.map
        (fun r => if r.id == bid then { r with rubitime_id := some rid } else r) }

/-! ## `handle_free_booking` (`bot/hndlrs/booking_hndlr.py` 467-560)

Oracle parameters: `rubitimeRes` is the scheduling-backend adapter's
answer (external record id, or `none` on failure — the adapter signals
failure by value, which the handler tests with `if rubitime_id:`), and
`adminRaises` says whether `bot.send_message(ADMIN_TELEGRAM_ID, ...)`
raises.  A raise anywhere in the `try` block lands in the `except`
branch, which answers the generic error text; the `finally` branch
closes the session and clears the state.  When the query for the user or
the resolved tariff yields nothing, the attribute access (`user.phone`,
`tariff.service_id`) raises before the scheduling-backend call. -/
def handle_free_booking (db : DB) (telegram_id tariff_id : Nat)
    (visit_date : String) (visit_time : Option String) (duration : Option Nat)
    (amount : ℚ) (rubitimeRes : RubitimeResult) (adminRaises : Bool) :
    List Event × DB :=
  match create_booking db telegram_id tariff_id visit_date visit_time duration
      none (some amount) true duration.isNone none with
  | (none, msg?, db₁) =>
    ([Event.createBookingCall true none,
      Event.answerUser (pyOrStr msg? "Ошибка при создании брони."),
      Event.clearState], db₁)
  | (some b, msg?, db₁) =>
    match findUser db₁ telegram_id, findActiveTariff db₁ tariff_id with
    | none, _ =>
      ([Event.createBookingCall true none,
        Event.answerUser bookingErrText, Event.clearState], db₁)
    | some _, none =>
      ([Event.createBookingCall true none,
        Event.answerUser bookingErrText, Event.clearState], db₁)
    | some _, some t =>
      let db₂ := match rubitimeRes with
        | some rid => setRubitimeId db₁ b.id rid
        | none => db₁
      if adminRaises then
        ([Event.createBookingCall true none, Event.rubitimeCall,
          Event.answerUser bookingErrText, Event.clearState], db₂)
      else
        ([Event.createBookingCall true none, Event.rubitimeCall,
          Event.sendAdmin (msg?.getD ""),
          Event.answerUser (booking_success_text t visit_date visit_time duration),
          Event.clearState], db₂)

/-! ## `process_promocode` (`bot/hndlrs/booking_hndlr.py` 368-439)

`createPaymentRes` is the payment-gateway adapter's answer for
`create_payment(description, amount)`: `(payment_id, confirmation_url)`
or `none` on failure. -/
def process_promocode (db : DB) (telegram_id tariff_id : Nat)
    (visit_date : String) (visit_time : Option String) (duration : Option Nat)
    (inputText : String) (createPaymentRes : CreatePaymentResult)
    (rubitimeRes : RubitimeResult) (adminRaises : Bool) : List Event × DB :=
  match findActiveTariff db tariff_id with
  | none =>
    ([Event.answerUser "Тариф не найден. Попробуйте снова.", Event.clearState], db)
  | some tariff =>
    let promocode := inputText.trim
    let discount : ℚ := 0
    let warnEvents : List Event :=
      if promocode ≠ "/skip" then
        [Event.answerUser "Промокоды пока не поддерживаются. Продолжаем без скидки."]
      else []
    let amount := tariff.price * (1 - discount / 100)
    let description := "Бронь: " ++ tariff.name ++ ", дата: " ++ visit_date
      ++ (if tariff.purpose = "Переговорная" then
            ", время: " ++ optStrDisplay visit_time ++ ", длительность: "
              ++ optNatDisplay duration ++ " ч"
          else "")
    if amount = 0 then
      let r := handle_free_booking db telegram_id tariff_id visit_date visit_time
        duration amount rubitimeRes adminRaises
      (warnEvents ++ r.1, r.2)
    else
      match createPaymentRes with
      | none =>
        (warnEvents ++ [Event.createPaymentCall description amount,
          Event.answerUser "Ошибка при создании платежа. Попробуйте позже.",
          Event.clearState], db)
      | some (payment_id, _url) =>
        (warnEvents ++ [Event.createPaymentCall description amount,
          Event.answerUser ("Оплатите бронирование:\n" ++ description
            ++ "\nСумма: " ++ toString amount ++ " ₽"),
          Event.setState BookingState.STATUS_PAYMENT,
          Event.spawnPollTask payment_id], db)

/-! ## `poll_payment_status` (`bot/hndlrs/booking_hndlr.py` 563-696) -/

/-- `max_attempts = 60  # 5 минут (60 * 5 сек)` -/
def max_attempts : Nat := 60

/-- `delay = 5  # Секунды между попытками` -/
def delay : Nat := 5

/-- The `for _ in range(max_attempts)` loop of `poll_payment_status`,
with `fuel` remaining iterations and `i` the index of the current
attempt (so that the status oracle `statusAt` can vary per attempt). -/
def pollLoop (statusAt : PaymentStatusOracle) (pid : String)
    (telegram_id tariff_id : Nat) (visit_date : String)
    (visit_time : Option String) (duration : Option Nat) (amount : ℚ)
    (rubitimeRes : RubitimeResult) (adminRaises : Bool) :
    Nat → Nat → DB → List Event × DB
  | 0, _, db => ([Event.editUserMsg timeoutText, Event.clearState], db)
  | fuel + 1, i, db =>
    let st := statusAt i
    if st = some "succeeded" then
      match create_booking db telegram_id tariff_id visit_date visit_time duration
          none (some amount) true duration.isNone (some pid) with
      | (none, _, db₁) =>
        ([Event.checkStatus pid st, Event.createBookingCall true (some pid),
          Event.editUserMsg bookingErrText, Event.clearState], db₁)
      | (some b, msg?, db₁) =>
        match findUser db₁ telegram_id, findActiveTariff db₁ tariff_id with
        | none, _ =>
          ([Event.checkStatus pid st, Event.createBookingCall true (some pid),
            Event.editUserMsg bookingErrText, Event.clearState], db₁)
        | some _, none =>
          ([Event.checkStatus pid st, Event.createBookingCall true (some pid),
            Event.editUserMsg bookingErrText, Event.clearState], db₁)
        | some _, some t =>
          let db₂ := match rubitimeRes with
            | some rid => setRubitimeId db₁ b.id rid
            | none => db₁
          if adminRaises then
            ([Event.checkStatus pid st, Event.createBookingCall true (some pid),
              Event.rubitimeCall, Event.editUserMsg bookingErrText,
              Event.clearState], db₂)
          else
            ([Event.checkStatus pid st, Event.createBookingCall true (some pid),
              Event.rubitimeCall, Event.sendAdmin (msg?.getD ""),
              Event.editUserMsg (booking_success_text t visit_date visit_time duration),
              Event.clearState], db₂)
    else if st = some "canceled" then
      ([Event.checkStatus pid st, Event.editUserMsg canceledText,
        Event.clearState], db)
    else
      let r := pollLoop statusAt pid telegram_id tariff_id visit_date visit_time
        duration amount rubitimeRes adminRaises fuel (i + 1) db
      (Event.checkStatus pid st :: Event.sleep delay :: r.1, r.2)

/-- Shallow embedding of `poll_payment_status`: the loop from attempt 0
with `max_attempts` iterations. -/
def poll_payment_status (statusAt : PaymentStatusOracle) (pid : String)
    (telegram_id tariff_id : Nat) (visit_date : String)
    (visit_time : Option String) (duration : Option Nat) (amount : ℚ)
    (rubitimeRes : RubitimeResult) (adminRaises : Bool) (db : DB) :
    List Event × DB :=
  pollLoop statusAt pid telegram_id tariff_id visit_date visit_time duration
    amount rubitimeRes adminRaises max_attempts 0 db

/-! ## `cancel_payment` (`bot/hndlrs/booking_hndlr.py` 699-751)

`statusNow` is the answer of the single `check_payment_status` re-query
(`none` on a transient gateway error, in which case neither branch
fires).  Exceptions from `Refund.create`/`Payment.cancel` are caught and
logged only, after the gateway call has been issued. -/
def cancel_payment (payment_id? : Option String) (taskPresent taskDone : Bool)
    (statusNow : Option String) : List Event :=
  (if taskPresent && !taskDone then [Event.cancelTask] else [])
  ++ (match payment_id? with
      | none => []
      | some pid =>
        Event.checkStatus pid statusNow ::
          (if statusNow = some "succeeded" then [Event.refundCall pid]
           else if statusNow = some "pending" then [Event.cancelPaymentCall pid]
           else []))
  ++ [Event.editUserMsg canceledText, Event.clearState]

/-! ## Admin confirmation route (`web/routes/booking_routes.py` 23-79, 242-303) -/

/-- Where the HTTP response redirects to. -/
inductive Redirect where
  | bookings
  | booking_detail (booking_id : Nat)
  deriving Repr, DecidableEq

/-- The emoji looked up from `tariff_emojis` by the lower-cased purpose. -/
def tariff_emoji_for (purpose : String) : String :=
  let p := purpose.toLower
  if p = "meeting" then "🤝"
  else if p = "workspace" then "💼"
  else if p = "event" then "🎉"
  else if p = "office" then "🏢"
  else if p = "coworking" then "💻"
  else "📋"

/-- Shallow embedding of `format_booking_confirmation_notification`.
Dates and times are opaque string tokens in this model, so the
`strftime` re-rendering is the identity on them; `now` is the
`datetime.now(MOSCOW_TZ)` timestamp rendered at call time. -/
def format_booking_confirmation_notification (user : UserRow)
    (booking : BookingRow) (tariff : TariffRow)
    (promocode : Option PromocodeRow) (now : String) : String :=
  let _ := user
  let datetime_str :=
    match booking.visit_time with
    | some timeStr => booking.visit_date ++ " в " ++ timeStr
    | none => booking.visit_date ++ " (весь день)"
  let discount_info :=
    match promocode with
    | some p =>
      if pyTruthyNat booking.promocode_id then
        "\n💰 <b>Скидка:</b> " ++ toString p.discount
          ++ "% (промокод: <code>" ++ p.name ++ "</code>)"
      else ""
    | none => ""
  let duration_info :=
    if pyTruthyNat booking.duration then
      "\n⏱ <b>Длительность:</b> " ++ optNatDisplay booking.duration ++ " час(ов)"
    else ""
  ("✅ <b>Ваша бронь подтверждена!</b> " ++ tariff_emoji_for tariff.purpose
    ++ "\n\n📋 <b>Детали брони:</b>\n├ <b>Тариф:</b> " ++ tariff.name
    ++ "\n├ <b>Дата и время:</b> " ++ datetime_str ++ duration_info
    ++ "\n└ <b>Сумма:</b> " ++ toString booking.amount ++ " ₽" ++ discount_info
    ++ "\n\n⏰ <i>Время подтверждения: " ++ now ++ "</i>").trim

/-- Shallow embedding of the `confirm_booking` POST route.  Returns the
resulting store, the Telegram messages dispatched to users
(`send_telegram_message_sync`, recorded regardless of its success flag,
which is only logged), and the redirect.  `booking.confirmed = True` is
a session-local mutation that only becomes visible at
`db.session.commit()`; the early returns before the commit leave the
store unchanged. -/
def confirm_booking (db : DB) (now : String) (booking_id : Nat) :
    DB × List (Nat × String) × Redirect :=
  match db.bookings.find? (fun b => b.id == booking_id) with
  | none => (db, [], Redirect.bookings)
  | some booking =>
    if booking.confirmed then
      (db, [], Redirect.booking_detail booking_id)
    else
      match db.users.find? (fun u => u.id == booking.user_id),
            db.tariffs.find? (fun t => t.id == booking.tariff_id) with
      | none, _ => (db, [], Redirect.booking_detail booking_id)
      | some _, none => (db, [], Redirect.booking_detail booking_id)
      | some user, some tariff =>
        let promocode :=
          match booking.promocode_id with
          | some pcId => db.promocodes.find? (fun p => p.id == pcId)
          | none => none
        let msg := format_booking_confirmation_notification user booking tariff
          promocode now
        let db' := { db with
          bookings := db.bookings.map
            (fun b => if b.id == booking_id then { b with confirmed := true } else b) }
        (db', [(user.telegram_id, msg)], Redirect.booking_detail booking_id)

/-! ## Event classifiers and proof helpers -/

def Event.isCheckStatus : Event → Bool
  | .checkStatus _ _ => true
  | _ => false

def Event.isCreateBooking : Event → Bool
  | .createBookingCall _ _ => true
  | _ => false

def Event.isRefund : Event → Bool
  | .refundCall _ => true
  | _ => false

def Event.isCancelPayment : Event → Bool
  | .cancelPaymentCall _ => true
  | _ => false

def Event.isSleep : Event → Bool
  | .sleep _ => true
  | _ => false

/-- The booking row `create_booking` flushes when validation passes. -/
def mkBookingRow (db : DB) (u : UserRow) (t : TariffRow) (vd : String)
    (vt : Option String) (du : Option Nat) (pc : Option Nat) (am : Option ℚ)
    (pa cf : Bool) (pmt : Option String) : BookingRow :=
  { id := db.nextBookingId
    user_id := u.id
    tariff_id := t.id
    visit_date := vd
    visit_time := vt
    duration := du
    promocode_id := pc
    amount := pyOrAmount am t.price
    payment_id := pmt
    paid := pa
    confirmed := cf
    rubitime_id := none }

/-- The notification row `create_booking` inserts alongside the booking. -/
def mkNotificationRow (db : DB) (u : UserRow) (t : TariffRow) (vd : String)
    (vt : Option String) (du : Option Nat) : NotificationRow :=
  { user_id := u.id
    message := booking_notification_message u t vd vt du
    is_read := false
    booking_id := db.nextBookingId }

theorem findUser_update (db : DB) (bs : List BookingRow) (ns : List NotificationRow)
    (k tg : Nat) :
    findUser { db with bookings := bs, notifications := ns, nextBookingId := k } tg
      = findUser db tg := rfl

theorem findActiveTariff_update (db : DB) (bs : List BookingRow)
    (ns : List NotificationRow) (k tid : Nat) :
    findActiveTariff { db with bookings := bs, notifications := ns, nextBookingId := k } tid
      = findActiveTariff db tid := rfl

/-- On passing validation, `create_booking` commits exactly the flushed
booking row together with its notification row. -/
theorem create_booking_success_eq (db : DB) (tg tid : Nat) (vd : String)
    (vt : Option String) (du : Option Nat) (pc : Option Nat) (am : Option ℚ)
    (pa cf : Bool) (pmt : Option String)
    (u : UserRow) (hu : findUser db tg = some u)
    (t : TariffRow) (ht : findActiveTariff db tid = some t) :
    create_booking db tg tid vd vt du pc am pa cf pmt =
      (some (mkBookingRow db u t vd vt du pc am pa cf pmt),
       some (booking_admin_message u t tg vd vt du),
       { db with
           bookings := db.bookings ++ [mkBookingRow db u t vd vt du pc am pa cf pmt]
           notifications := db.notifications ++ [mkNotificationRow db u t vd vt du]
           nextBookingId := db.nextBookingId + 1 }) := by
  unfold create_booking
  rw [hu, ht]
  rfl

/-- `setRubitimeId` leaves rows whose id differs from the target
untouched. -/
theorem map_no_touch (l : List BookingRow) (k rid : Nat)
    (h : ∀ r ∈ l, r.id ≠ k) :
    l.map (fun r => if r.id = k then { r with rubitime_id := some rid } else r) = l := by
  induction l with
  | nil => rfl
  | cons x xs ih =>
    simp only [List.map_cons, if_neg (h x (List.mem_cons_self x xs))]
    rw [ih (fun r hr => h r (List.mem_cons_of_mem x hr))]

/-- Characterization of `handle_free_booking` when the store write
succeeds (user and active tariff present, fresh booking id): the booking
row is committed in every outcome; the trail depends only on whether the
admin notification raises. -/
theorem handle_free_booking_success (db : DB) (tg tid : Nat) (vd : String)
    (vt : Option String) (du : Option Nat) (amount : ℚ)
    (rubitimeRes : Option Nat) (adminRaises : Bool)
    (u : UserRow) (hu : findUser db tg = some u)
    (t : TariffRow) (ht : findActiveTariff db tid = some t)
    (hfresh : ∀ r ∈ db.bookings, r.id ≠ db.nextBookingId) :
    ∃ b : BookingRow,
      (handle_free_booking db tg tid vd vt du amount rubitimeRes adminRaises).2.bookings
          = db.bookings ++ [b]
      ∧ b.paid = true ∧ b.confirmed = du.isNone ∧ b.payment_id = none
      ∧ b.amount = pyOrAmount (some amount) t.price
      ∧ (adminRaises = true →
          (handle_free_booking db tg tid vd vt du amount rubitimeRes adminRaises).1
            = [Event.createBookingCall true none, Event.rubitimeCall,
               Event.answerUser bookingErrText, Event.clearState])
      ∧ (adminRaises = false →
          (handle_free_booking db tg tid vd vt du amount rubitimeRes adminRaises).1
            = [Event.createBookingCall true none, Event.rubitimeCall,
               Event.sendAdmin (booking_admin_message u t tg vd vt du),
               Event.answerUser (booking_success_text t vd vt du),
               Event.clearState]) := by
  unfold handle_free_booking
  rw [create_booking_success_eq db tg tid vd vt du none (some amount) true
    du.isNone none u hu t ht]
  simp only [findUser_update, findActiveTariff_update, hu, ht]
  cases adminRaises <;> rcases rubitimeRes with _ | rid
  · refine ⟨mkBookingRow db u t vd vt du none (some amount) true du.isNone none,
      by simp, rfl, rfl, rfl, rfl, ?_, ?_⟩
    · intro h; exact absurd h (by simp)
    · intro h; simp
  · refine ⟨{ mkBookingRow db u t vd vt du none (some amount) true du.isNone none with
        rubitime_id := some rid }, ?_, rfl, rfl, rfl, rfl, ?_, ?_⟩
    · simp [setRubitimeId, mkBookingRow,
        map_no_touch db.bookings db.nextBookingId rid hfresh]
    · intro h; exact absurd h (by simp)
    · intro h; simp
  · refine ⟨mkBookingRow db u t vd vt du none (some amount) true du.isNone none,
      by simp, rfl, rfl, rfl, rfl, ?_, ?_⟩
    · intro h; simp
    · intro h; exact absurd h (by simp)
  · refine ⟨{ mkBookingRow db u t vd vt du none (some amount) true du.isNone none with
        rubitime_id := some rid }, ?_, rfl, rfl, rfl, rfl, ?_, ?_⟩
    · simp [setRubitimeId, mkBookingRow,
        map_no_touch db.bookings db.nextBookingId rid hfresh]
    · intro h; simp
    · intro h; exact absurd h (by simp)

/-- `process_promocode` with a found tariff and a zero computed amount
runs the synchronous free-booking finalization after the optional
promo-code warning. -/
theorem process_promocode_zero_eq (db : DB) (tg tid : Nat) (vd : String)
    (vt : Option String) (du : Option Nat) (inputText : String)
    (cpRes : Option (String × String)) (rubitimeRes : Option Nat)
    (adminRaises : Bool) (t : TariffRow) (ht : findActiveTariff db tid = some t)
    (hzero : t.price * (1 - (0:ℚ) / 100) = 0) :
    process_promocode db tg tid vd vt du inputText cpRes rubitimeRes adminRaises
      = ((if inputText.trim ≠ "/skip" then
            [Event.answerUser "Промокоды пока не поддерживаются. Продолжаем без скидки."]
          else [])
          ++ (handle_free_booking db tg tid vd vt du (t.price * (1 - (0:ℚ) / 100))
              rubitimeRes adminRaises).1,
         (handle_free_booking db tg tid vd vt du (t.price * (1 - (0:ℚ) / 100))
             rubitimeRes adminRaises).2) := by
  unfold process_promocode
  rw [ht]
  simp only []
  rw [if_pos hzero]

/-! ## Example fixtures -/

def userEx : UserRow :=
  { id := 1, telegram_id := 100, full_name := some "Ivan",
    phone := some "89161234567", email := some "ivan@example.com" }

def tariffEx : TariffRow :=
  { id := 1, name := "Open Space", price := 500, purpose := "Опенспейс",
    service_id := some 7, is_active := true }

def tariffFreeEx : TariffRow :=
  { id := 2, name := "Free Day", price := 0, purpose := "Опенспейс",
    service_id := some 8, is_active := true }

def dbEx : DB :=
  { users := [userEx], tariffs := [tariffEx, tariffFreeEx], promocodes := [],
    bookings := [], notifications := [], nextBookingId := 1 }

/-! ## Claims -/

/-- C9: `format_phone_for_rubitime` rejects a phone number written in the
canonical `+7` form itself: stripping non-digits leaves a string that can
never start with the literal `"+7"`, so the `digits.startswith("+7")` arm
of the source is dead and `"+71234567890"` (11 digits, `+7` prefix) falls
through to the `"Не указано"` placeholder, while the same number written
with a leading `8` is normalized. -/
theorem format_phone_plus7_rejected :
    format_phone_for_rubitime "+71234567890" = "Не указано"
    ∧ (stripNonDigits "+71234567890").length = 11
    ∧ strStartsWith "+71234567890" "+7" = true
    ∧ format_phone_for_rubitime "81234567890" = "+71234567890"
    ∧ format_phone_for_rubitime "" = "Не указано" := by
  refine ⟨by decide, by decide, by decide, by decide, by decide⟩

/-- C5: the `cancel_booking` ("return to main menu") handler is
registered with the Python expression
`ENTER_DATE or ENTER_TIME or ENTER_DURATION or ENTER_PROMOCODE`, which
evaluates to its first (truthy) operand, so the handler fires in
`ENTER_DATE` only and not in `ENTER_TIME`, `ENTER_DURATION` or
`ENTER_PROMOCODE`. -/
theorem main_menu_handler_only_enter_date :
    cancel_booking_filter = BookingState.ENTER_DATE
    ∧ cancel_booking_fires BookingState.ENTER_DATE "main_menu" = true
    ∧ cancel_booking_fires BookingState.ENTER_TIME "main_menu" = false
    ∧ cancel_booking_fires BookingState.ENTER_DURATION "main_menu" = false
    ∧ cancel_booking_fires BookingState.ENTER_PROMOCODE "main_menu" = false := by
  refine ⟨rfl, rfl, rfl, rfl, rfl⟩

/-- C10: invoking the admin confirmation action on an already-confirmed
booking sends no user notification, leaves the store (hence every field
of the booking) unchanged, and redirects to the booking detail page. -/
theorem confirm_booking_idempotent (db : DB) (now : String) (bid : Nat)
    (b : BookingRow) (hfind : db.bookings.find? (fun r => r.id == bid) = some b)
    (hconf : b.confirmed = true) :
    confirm_booking db now bid = (db, [], Redirect.booking_detail bid) := by
  unfold confirm_booking
  rw [hfind]
  simp [hconf]

def bookingConfirmedEx : BookingRow :=
  { id := 1, user_id := 1, tariff_id := 1, visit_date := "2099-01-01",
    visit_time := none, duration := none, promocode_id := none, amount := 500,
    payment_id := none, paid := true, confirmed := true, rubitime_id := none }

def dbWebEx : DB := { dbEx with bookings := [bookingConfirmedEx] }

theorem confirm_booking_idempotent_witness :
    confirm_booking dbWebEx "01.01.2099 10:00:00" 1
      = (dbWebEx, [], Redirect.booking_detail 1) :=
  confirm_booking_idempotent dbWebEx "01.01.2099 10:00:00" 1 bookingConfirmedEx
    (by decide) rfl

/-- C4: the `cancel_payment` handler first cancels the reconciliation
task, then re-queries the payment status exactly once; a `succeeded`
answer triggers exactly one refund call, a `pending` answer exactly one
cancel-payment call, any other answer (including a transient-error
`none`) no further gateway call; no `create_booking` call occurs and the
conversation state is cleared. -/
theorem cancel_payment_reversal (pid : String) (statusNow : Option String)
    (taskPresent taskDone : Bool) (hP : taskPresent = true) (hD : taskDone = false) :
    (cancel_payment (some pid) taskPresent taskDone statusNow).head?
        = some Event.cancelTask
    ∧ (cancel_payment (some pid) taskPresent taskDone statusNow).countP Event.isCheckStatus = 1
    ∧ (cancel_payment (some pid) taskPresent taskDone statusNow)[1]?
        = some (Event.checkStatus pid statusNow)
    ∧ (cancel_payment (some pid) taskPresent taskDone statusNow).countP Event.isRefund
        = (if statusNow = some "succeeded" then 1 else 0)
    ∧ (cancel_payment (some pid) taskPresent taskDone statusNow).countP Event.isCancelPayment
        = (if statusNow = some "pending" then 1 else 0)
    ∧ (cancel_payment (some pid) taskPresent taskDone statusNow).countP Event.isCreateBooking = 0
    ∧ Event.clearState ∈ cancel_payment (some pid) taskPresent taskDone statusNow := by
  subst hP; subst hD
  unfold cancel_payment
  by_cases h1 : statusNow = some "succeeded"
  · simp [h1, List.countP_cons, Event.isCheckStatus, Event.isRefund,
      Event.isCancelPayment, Event.isCreateBooking]
  · by_cases h2 : statusNow = some "pending"
    · simp [h1, h2, List.countP_cons, Event.isCheckStatus, Event.isRefund,
        Event.isCancelPayment, Event.isCreateBooking]
    · simp [h1, h2, List.countP_cons, Event.isCheckStatus, Event.isRefund,
        Event.isCancelPayment, Event.isCreateBooking]

theorem cancel_payment_reversal_witness :
    (cancel_payment (some "p1") true false (some "pending")).head?
        = some Event.cancelTask
    ∧ (cancel_payment (some "p1") true false (some "pending")).countP Event.isCheckStatus = 1
    ∧ (cancel_payment (some "p1") true false (some "pending"))[1]?
        = some (Event.checkStatus "p1" (some "pending"))
    ∧ (cancel_payment (some "p1") true false (some "pending")).countP Event.isRefund
        = (if (some "pending" : Option String) = some "succeeded" then 1 else 0)
    ∧ (cancel_payment (some "p1") true false (some "pending")).countP Event.isCancelPayment
        = (if (some "pending" : Option String) = some "pending" then 1 else 0)
    ∧ (cancel_payment (some "p1") true false (some "pending")).countP Event.isCreateBooking = 0
    ∧ Event.clearState ∈ cancel_payment (some "p1") true false (some "pending") :=
  cancel_payment_reversal "p1" (some "pending") true false rfl rfl

/-- C7: `create_booking` validates the referenced user and (active)
tariff, returning an error reason and leaving the store untouched when
either check fails, and otherwise commits the booking row together with
its notification row in one step and returns the formatted admin
summary. -/
theorem create_booking_validates_and_atomic (db : DB) (tg tid : Nat) (vd : String)
    (vt : Option String) (du : Option Nat) (pc : Option Nat) (am : Option ℚ)
    (pa cf : Bool) (pmt : Option String) :
    (findUser db tg = none →
      create_booking db tg tid vd vt du pc am pa cf pmt
        = (none, some "Пользователь не найден", db))
    ∧ (∀ u, findUser db tg = some u → findActiveTariff db tid = none →
      create_booking db tg tid vd vt du pc am pa cf pmt
        = (none, some "Тариф не найден", db))
    ∧ (∀ u t, findUser db tg = some u → findActiveTariff db tid = some t →
      ∃ b n, create_booking db tg tid vd vt du pc am pa cf pmt
          = (some b, some (booking_admin_message u t tg vd vt du),
             { db with
                 bookings := db.bookings ++ [b]
                 notifications := db.notifications ++ [n]
                 nextBookingId := db.nextBookingId + 1 })
        ∧ b.paid = pa ∧ b.confirmed = cf ∧ b.payment_id = pmt
        ∧ n.booking_id = b.id) := by
  refine ⟨?_, ?_, ?_⟩
  · intro h; unfold create_booking; rw [h]
  · intro u hu ht; unfold create_booking; rw [hu, ht]
  · intro u t hu ht
    exact ⟨_, _, create_booking_success_eq db tg tid vd vt du pc am pa cf pmt u hu t ht,
      rfl, rfl, rfl, rfl⟩

theorem create_booking_atomic_witness :
    ∃ b n, create_booking dbEx 100 1 "2099-01-01" none none none (some 500) true true none
        = (some b, some (booking_admin_message userEx tariffEx 100 "2099-01-01" none none),
           { dbEx with
               bookings := dbEx.bookings ++ [b]
               notifications := dbEx.notifications ++ [n]
               nextBookingId := dbEx.nextBookingId + 1 })
      ∧ b.paid = true ∧ b.confirmed = true ∧ b.payment_id = none
      ∧ n.booking_id = b.id :=
  (create_booking_validates_and_atomic dbEx 100 1 "2099-01-01" none none none
      (some 500) true true none).2.2 userEx tariffEx (by decide) (by decide)

/-- C8: the stored amount is `amount or tariff.price`, so an omitted or
zero `amount` falls back to the tariff price, and a row created through
`create_booking` can only carry `amount = 0` when the tariff price is
itself `0`. -/
theorem create_booking_amount_fallback (db : DB) (tg tid : Nat) (vd : String)
    (vt : Option String) (du : Option Nat) (pc : Option Nat) (am : Option ℚ)
    (pa cf : Bool) (pmt : Option String) (t : TariffRow)
    (ht : findActiveTariff db tid = some t)
    (b : BookingRow) (msg : Option String) (db' : DB)
    (hrun : create_booking db tg tid vd vt du pc am pa cf pmt = (some b, msg, db')) :
    b.amount = pyOrAmount am t.price
    ∧ ((am = none ∨ am = some 0) → b.amount = t.price)
    ∧ (t.price ≠ 0 → b.amount ≠ 0) := by
  cases hu : findUser db tg with
  | none => unfold create_booking at hrun; rw [hu] at hrun; simp at hrun
  | some u =>
    rw [create_booking_success_eq db tg tid vd vt du pc am pa cf pmt u hu t ht] at hrun
    simp only [Prod.mk.injEq, Option.some.injEq] at hrun
    obtain ⟨hb, -, -⟩ := hrun
    subst hb
    refine ⟨rfl, ?_, ?_⟩
    · rintro (rfl | rfl) <;> simp [mkBookingRow, pyOrAmount]
    · intro hp
      rcases am with _ | a
      · simpa [mkBookingRow, pyOrAmount] using hp
      · by_cases ha : a = 0
        · simpa [mkBookingRow, pyOrAmount, ha] using hp
        · simp [mkBookingRow, pyOrAmount, ha]

theorem create_booking_amount_fallback_witness :
    (mkBookingRow dbEx userEx tariffEx "2099-01-01" none none none (some 0) true true none).amount
        = pyOrAmount (some 0) tariffEx.price
    ∧ ((some (0:ℚ) = none ∨ some (0:ℚ) = some 0) →
        (mkBookingRow dbEx userEx tariffEx "2099-01-01" none none none (some 0) true true none).amount
          = tariffEx.price)
    ∧ (tariffEx.price ≠ 0 →
        (mkBookingRow dbEx userEx tariffEx "2099-01-01" none none none (some 0) true true none).amount
          ≠ 0) :=
  create_booking_amount_fallback dbEx 100 1 "2099-01-01" none none none (some 0)
    true true none tariffEx (by decide)
    (mkBookingRow dbEx userEx tariffEx "2099-01-01" none none none (some 0) true true none)
    (some (booking_admin_message userEx tariffEx 100 "2099-01-01" none none))
    ({ dbEx with
        bookings := dbEx.bookings
          ++ [mkBookingRow dbEx userEx tariffEx "2099-01-01" none none none (some 0) true true none]
        notifications := dbEx.notifications
          ++ [mkNotificationRow dbEx userEx tariffEx "2099-01-01" none none]
        nextBookingId := dbEx.nextBookingId + 1 })
    (create_booking_success_eq dbEx 100 1 "2099-01-01" none none none (some 0)
      true true none userEx (by decide) tariffEx (by decide))

/-- C2: when the computed amount is zero, `process_promocode` performs
the synchronous finalization instead of payment creation: no
`create_payment` call occurs, and a booking row is committed with
`paid = true`, `confirmed` exactly when the duration is unset, and no
payment id. -/
theorem zero_amount_free_path (db : DB) (tg tid : Nat) (vd : String)
    (vt : Option String) (du : Option Nat) (inputText : String)
    (cpRes : Option (String × String)) (rubitimeRes : Option Nat)
    (adminRaises : Bool)
    (u : UserRow) (hu : findUser db tg = some u)
    (t : TariffRow) (ht : findActiveTariff db tid = some t)
    (hfresh : ∀ r ∈ db.bookings, r.id ≠ db.nextBookingId)
    (hzero : t.price * (1 - (0:ℚ) / 100) = 0) :
    (∀ d a, Event.createPaymentCall d a
        ∉ (process_promocode db tg tid vd vt du inputText cpRes rubitimeRes adminRaises).1)
    ∧ ∃ b : BookingRow,
        (process_promocode db tg tid vd vt du inputText cpRes rubitimeRes adminRaises).2.bookings
            = db.bookings ++ [b]
        ∧ b.paid = true ∧ b.confirmed = du.isNone ∧ b.payment_id = none := by
  have heq := process_promocode_zero_eq db tg tid vd vt du inputText cpRes
    rubitimeRes adminRaises t ht hzero
  obtain ⟨b, hbk, hpaid, hconf, hpay, -, htrT, htrF⟩ :=
    handle_free_booking_success db tg tid vd vt du (t.price * (1 - (0:ℚ) / 100))
      rubitimeRes adminRaises u hu t ht hfresh
  constructor
  · intro d a hmem
    rw [heq] at hmem
    rcases List.mem_append.mp hmem with hmem | hmem
    · by_cases hsk : inputText.trim = "/skip" <;> simp [hsk] at hmem
    · cases adminRaises
      · rw [htrF rfl] at hmem; simp at hmem
      · rw [htrT rfl] at hmem; simp at hmem
  · exact ⟨b, by rw [heq]; exact hbk, hpaid, hconf, hpay⟩

theorem zero_amount_free_path_witness :
    (∀ d a, Event.createPaymentCall d a
        ∉ (process_promocode dbEx 100 2 "2099-01-01" none none "/skip" none none false).1)
    ∧ ∃ b : BookingRow,
        (process_promocode dbEx 100 2 "2099-01-01" none none "/skip" none none false).2.bookings
            = dbEx.bookings ++ [b]
        ∧ b.paid = true ∧ b.confirmed = (none : Option Nat).isNone
        ∧ b.payment_id = none :=
  zero_amount_free_path dbEx 100 2 "2099-01-01" none none "/skip" none none false
    userEx (by decide) tariffFreeEx (by decide) (by decide) (by simp [tariffFreeEx])

/-- A poll attempt answering `succeeded`: the finalization of the loop
body commits the booking row with the payment id; the trail depends
only on whether the admin notification raises. -/
theorem pollLoop_succeeded_step (statusAt : Nat → Option String) (pid : String)
    (tg tid : Nat) (vd : String) (vt : Option String) (du : Option Nat)
    (amount : ℚ) (rubitimeRes : Option Nat) (adminRaises : Bool)
    (fuel i : Nat) (db : DB)
    (u : UserRow) (hu : findUser db tg = some u)
    (t : TariffRow) (ht : findActiveTariff db tid = some t)
    (hfresh : ∀ r ∈ db.bookings, r.id ≠ db.nextBookingId)
    (hs : statusAt i = some "succeeded") :
    ∃ b : BookingRow,
      (pollLoop statusAt pid tg tid vd vt du amount rubitimeRes adminRaises (fuel + 1) i db).2.bookings
          = db.bookings ++ [b]
      ∧ b.paid = true ∧ b.payment_id = some pid ∧ b.confirmed = du.isNone
      ∧ (adminRaises = true →
          (pollLoop statusAt pid tg tid vd vt du amount rubitimeRes adminRaises (fuel + 1) i db).1
            = [Event.checkStatus pid (some "succeeded"),
               Event.createBookingCall true (some pid), Event.rubitimeCall,
               Event.editUserMsg bookingErrText, Event.clearState])
      ∧ (adminRaises = false →
          (pollLoop statusAt pid tg tid vd vt du amount rubitimeRes adminRaises (fuel + 1) i db).1
            = [Event.checkStatus pid (some "succeeded"),
               Event.createBookingCall true (some pid), Event.rubitimeCall,
               Event.sendAdmin (booking_admin_message u t tg vd vt du),
               Event.editUserMsg (booking_success_text t vd vt du),
               Event.clearState]) := by
  simp only [pollLoop]
  rw [hs, if_pos rfl]
  rw [create_booking_success_eq db tg tid vd vt du none (some amount) true
    du.isNone (some pid) u hu t ht]
  simp only [findUser_update, findActiveTariff_update, hu, ht]
  cases adminRaises <;> rcases rubitimeRes with _ | rid
  · refine ⟨mkBookingRow db u t vd vt du none (some amount) true du.isNone (some pid),
      by simp, rfl, rfl, rfl, ?_, ?_⟩
    · intro h; exact absurd h (by simp)
    · intro h; simp
  · refine ⟨{ mkBookingRow db u t vd vt du none (some amount) true du.isNone (some pid) with
        rubitime_id := some rid }, ?_, rfl, rfl, rfl, ?_, ?_⟩
    · simp [setRubitimeId, mkBookingRow,
        map_no_touch db.bookings db.nextBookingId rid hfresh]
    · intro h; exact absurd h (by simp)
    · intro h; simp
  · refine ⟨mkBookingRow db u t vd vt du none (some amount) true du.isNone (some pid),
      by simp, rfl, rfl, rfl, ?_, ?_⟩
    · intro h; simp
    · intro h; exact absurd h (by simp)
  · refine ⟨{ mkBookingRow db u t vd vt du none (some amount) true du.isNone (some pid) with
        rubitime_id := some rid }, ?_, rfl, rfl, rfl, ?_, ?_⟩
    · simp [setRubitimeId, mkBookingRow,
        map_no_touch db.bookings db.nextBookingId rid hfresh]
    · intro h; simp
    · intro h; exact absurd h (by simp)

/-- C6 counterexample: free booking on a zero-price tariff, scheduling
backend reporting no external id, admin notification raising.  The
booking row is committed and stays, but the only message answered to the
user is the generic booking-error text — the success message is absent,
so the user is not told the booking succeeded. -/
theorem admin_failure_tells_user_error :
    (handle_free_booking dbEx 100 2 "2099-01-01" none none 0 none true).1
        = [Event.createBookingCall true none, Event.rubitimeCall,
           Event.answerUser bookingErrText, Event.clearState]
    ∧ (handle_free_booking dbEx 100 2 "2099-01-01" none none 0 none true).2.bookings.length = 1
    ∧ Event.answerUser (booking_success_text tariffFreeEx "2099-01-01" none none)
        ∉ (handle_free_booking dbEx 100 2 "2099-01-01" none none 0 none true).1 := by
  refine ⟨by decide, by decide, by decide⟩

/-- C6 (amended): after a successful Reservation Store write, the booking
row remains committed in every outcome (never rolled back); when the
Scheduling Backend push merely fails — the adapter reports no external
id — the user is still told the booking succeeded, but when the admin
notification raises, the user is shown the generic booking-error message
instead of the success message.  Both finalization paths (free booking
and successful payment) behave the same way. -/
theorem side_effect_failures_keep_booking (db : DB) (tg tid : Nat)
    (vd : String) (vt : Option String) (du : Option Nat) (amount : ℚ)
    (statusAt : Nat → Option String) (pid : String)
    (rubitimeRes : Option Nat) (adminRaises : Bool)
    (u : UserRow) (hu : findUser db tg = some u)
    (t : TariffRow) (ht : findActiveTariff db tid = some t)
    (hfresh : ∀ r ∈ db.bookings, r.id ≠ db.nextBookingId)
    (hs : statusAt 0 = some "succeeded") :
    (∃ b : BookingRow,
        (handle_free_booking db tg tid vd vt du amount rubitimeRes adminRaises).2.bookings
          = db.bookings ++ [b])
    ∧ (adminRaises = false →
        Event.answerUser (booking_success_text t vd vt du)
          ∈ (handle_free_booking db tg tid vd vt du amount rubitimeRes adminRaises).1)
    ∧ (adminRaises = true →
        (handle_free_booking db tg tid vd vt du amount rubitimeRes adminRaises).1
          = [Event.createBookingCall true none, Event.rubitimeCall,
             Event.answerUser bookingErrText, Event.clearState])
    ∧ (∃ b : BookingRow,
        (poll_payment_status statusAt pid tg tid vd vt du amount rubitimeRes adminRaises db).2.bookings
          = db.bookings ++ [b])
    ∧ (adminRaises = false →
        Event.editUserMsg (booking_success_text t vd vt du)
          ∈ (poll_payment_status statusAt pid tg tid vd vt du amount rubitimeRes adminRaises db).1)
    ∧ (adminRaises = true →
        (poll_payment_status statusAt pid tg tid vd vt du amount rubitimeRes adminRaises db).1
          = [Event.checkStatus pid (some "succeeded"),
             Event.createBookingCall true (some pid), Event.rubitimeCall,
             Event.editUserMsg bookingErrText, Event.clearState]) := by
  obtain ⟨b₁, hbk₁, -, -, -, -, hT₁, hF₁⟩ :=
    handle_free_booking_success db tg tid vd vt du amount rubitimeRes adminRaises
      u hu t ht hfresh
  have hpoll : poll_payment_status statusAt pid tg tid vd vt du amount rubitimeRes adminRaises db
      = pollLoop statusAt pid tg tid vd vt du amount rubitimeRes adminRaises (59 + 1) 0 db := rfl
  obtain ⟨b₂, hbk₂, -, -, -, hT₂, hF₂⟩ :=
    pollLoop_succeeded_step statusAt pid tg tid vd vt du amount rubitimeRes adminRaises
      59 0 db u hu t ht hfresh hs
  refine ⟨⟨b₁, hbk₁⟩, ?_, hT₁, ⟨b₂, by rw [hpoll]; exact hbk₂⟩, ?_, ?_⟩
  · intro h; rw [hF₁ h]; simp
  · intro h; rw [hpoll, hF₂ h]; simp
  · intro h; rw [hpoll]; exact hT₂ h

theorem side_effect_failures_keep_booking_witness :
    (∃ b : BookingRow,
        (handle_free_booking dbEx 100 2 "2099-01-01" none none 0 none true).2.bookings
          = dbEx.bookings ++ [b])
    ∧ (true = false →
        Event.answerUser (booking_success_text tariffFreeEx "2099-01-01" none none)
          ∈ (handle_free_booking dbEx 100 2 "2099-01-01" none none 0 none true).1)
    ∧ (true = true →
        (handle_free_booking dbEx 100 2 "2099-01-01" none none 0 none true).1
          = [Event.createBookingCall true none, Event.rubitimeCall,
             Event.answerUser bookingErrText, Event.clearState])
    ∧ (∃ b : BookingRow,
        (poll_payment_status (fun _ => some "succeeded") "p1" 100 2 "2099-01-01" none none 0 none true dbEx).2.bookings
          = dbEx.bookings ++ [b])
    ∧ (true = false →
        Event.editUserMsg (booking_success_text tariffFreeEx "2099-01-01" none none)
          ∈ (poll_payment_status (fun _ => some "succeeded") "p1" 100 2 "2099-01-01" none none 0 none true dbEx).1)
    ∧ (true = true →
        (poll_payment_status (fun _ => some "succeeded") "p1" 100 2 "2099-01-01" none none 0 none true dbEx).1
          = [Event.checkStatus "p1" (some "succeeded"),
             Event.createBookingCall true (some "p1"), Event.rubitimeCall,
             Event.editUserMsg bookingErrText, Event.clearState]) :=
  side_effect_failures_keep_booking dbEx 100 2 "2099-01-01" none none 0
    (fun _ => some "succeeded") "p1" none true
    userEx (by decide) tariffFreeEx (by decide) (by decide) rfl

/-! ## C3: timeout of the reconciliation loop -/

/-- The trail left by `n` consecutive non-terminal poll attempts
starting at attempt `i`: each attempt checks the status once and sleeps
`delay` seconds. -/
def pendingTrail (statusAt : Nat → Option String) (pid : String) :
    Nat → Nat → List Event
  | 0, _ => []
  | n + 1, i =>
    Event.checkStatus pid (statusAt i) :: Event.sleep delay ::
      pendingTrail statusAt pid n (i + 1)

theorem pendingTrail_countP_check (statusAt : Nat → Option String) (pid : String) :
    ∀ n i, (pendingTrail statusAt pid n i).countP Event.isCheckStatus = n := by
  intro n
  induction n with
  | zero => intro i; rfl
  | succ m ih =>
    intro i
    simp [pendingTrail, List.countP_cons, Event.isCheckStatus, Event.isSleep, ih (i + 1)]

theorem pendingTrail_countP_sleep (statusAt : Nat → Option String) (pid : String) :
    ∀ n i, (pendingTrail statusAt pid n i).countP Event.isSleep = n := by
  intro n
  induction n with
  | zero => intro i; rfl
  | succ m ih =>
    intro i
    simp [pendingTrail, List.countP_cons, Event.isCheckStatus, Event.isSleep, ih (i + 1)]

theorem pendingTrail_mem_shape (statusAt : Nat → Option String) (pid : String) :
    ∀ n i, ∀ e ∈ pendingTrail statusAt pid n i,
      Event.isCheckStatus e = true ∨ e = Event.sleep delay := by
  intro n
  induction n with
  | zero => intro i e he; simp [pendingTrail] at he
  | succ m ih =>
    intro i e he
    simp only [pendingTrail, List.mem_cons] at he
    rcases he with rfl | rfl | he
    · exact Or.inl rfl
    · exact Or.inr rfl
    · exact ih (i + 1) e he

/-- The loop on a window of attempts that all answer a non-terminal
status: every attempt is spent, the store is untouched, and the run ends
with the timeout edit and the state clear. -/
theorem pollLoop_no_terminal (statusAt : Nat → Option String) (pid : String)
    (tg tid : Nat) (vd : String) (vt : Option String) (du : Option Nat)
    (amount : ℚ) (rubitimeRes : Option Nat) (adminRaises : Bool) :
    ∀ (fuel i : Nat) (db : DB),
      (∀ j, i ≤ j → j < i + fuel →
        statusAt j ≠ some "succeeded" ∧ statusAt j ≠ some "canceled") →
      pollLoop statusAt pid tg tid vd vt du amount rubitimeRes adminRaises fuel i db
        = (pendingTrail statusAt pid fuel i
            ++ [Event.editUserMsg timeoutText, Event.clearState], db) := by
  intro fuel
  induction fuel with
  | zero => intro i db h; rfl
  | succ n ih =>
    intro i db h
    have hi := h i (le_refl i) (by omega)
    simp only [pollLoop, pendingTrail]
    rw [if_neg hi.1, if_neg hi.2,
      ih (i + 1) db (fun j hj1 hj2 => h j (by omega) (by omega))]
    rfl

/-- C3: when no poll in the 60-attempt window returns a terminal status,
the loop checks the status exactly 60 times with a 5-second sleep after
each attempt, then edits the message to the timeout text and clears the
state; no `create_booking` call, no refund and no cancel-payment call
occurs, and the store is unchanged. -/
theorem poll_timeout_no_booking (statusAt : Nat → Option String) (pid : String)
    (tg tid : Nat) (vd : String) (vt : Option String) (du : Option Nat)
    (amount : ℚ) (rubitimeRes : Option Nat) (adminRaises : Bool) (db : DB)
    (hnt : ∀ j, j < max_attempts →
      statusAt j ≠ some "succeeded" ∧ statusAt j ≠ some "canceled") :
    poll_payment_status statusAt pid tg tid vd vt du amount rubitimeRes adminRaises db
      = (pendingTrail statusAt pid max_attempts 0
          ++ [Event.editUserMsg timeoutText, Event.clearState], db)
    ∧ (poll_payment_status statusAt pid tg tid vd vt du amount rubitimeRes adminRaises db).1.countP
        Event.isCheckStatus = max_attempts
    ∧ (poll_payment_status statusAt pid tg tid vd vt du amount rubitimeRes adminRaises db).1.countP
        Event.isSleep = max_attempts
    ∧ (∀ e ∈ (poll_payment_status statusAt pid tg tid vd vt du amount rubitimeRes adminRaises db).1,
        Event.isCreateBooking e = false ∧ Event.isRefund e = false
          ∧ Event.isCancelPayment e = false)
    ∧ (∀ s, Event.sleep s ∈ (poll_payment_status statusAt pid tg tid vd vt du amount rubitimeRes adminRaises db).1
        → s = delay) := by
  have heq : poll_payment_status statusAt pid tg tid vd vt du amount rubitimeRes adminRaises db
      = (pendingTrail statusAt pid max_attempts 0
          ++ [Event.editUserMsg timeoutText, Event.clearState], db) :=
    pollLoop_no_terminal statusAt pid tg tid vd vt du amount rubitimeRes adminRaises
      max_attempts 0 db (fun j hj1 hj2 => hnt j (by omega))
  refine ⟨heq, ?_, ?_, ?_, ?_⟩
  · rw [heq]
    simp [List.countP_append, pendingTrail_countP_check, Event.isCheckStatus,
      List.countP_cons]
  · rw [heq]
    simp [List.countP_append, pendingTrail_countP_sleep, Event.isSleep,
      List.countP_cons]
  · intro e he
    rw [heq] at he
    rcases List.mem_append.mp he with he | he
    · rcases pendingTrail_mem_shape statusAt pid max_attempts 0 e he with hc | rfl
      · cases e <;> simp_all [Event.isCheckStatus, Event.isCreateBooking,
          Event.isRefund, Event.isCancelPayment]
      · exact ⟨rfl, rfl, rfl⟩
    · simp only [List.mem_cons, List.not_mem_nil, or_false] at he
      rcases he with rfl | rfl
      · exact ⟨rfl, rfl, rfl⟩
      · exact ⟨rfl, rfl, rfl⟩
  · intro s hs
    rw [heq] at hs
    rcases List.mem_append.mp hs with hs | hs
    · rcases pendingTrail_mem_shape statusAt pid max_attempts 0 _ hs with hc | he
      · simp [Event.isCheckStatus] at hc
      · exact (Event.sleep.inj he)
    · simp at hs

theorem poll_timeout_no_booking_witness :
    poll_payment_status (fun _ => some "pending") "p1" 100 1 "2099-01-01" none none
        500 none false dbEx
      = (pendingTrail (fun _ => some "pending") "p1" max_attempts 0
          ++ [Event.editUserMsg timeoutText, Event.clearState], dbEx)
    ∧ (poll_payment_status (fun _ => some "pending") "p1" 100 1 "2099-01-01" none none
        500 none false dbEx).1.countP Event.isCheckStatus = max_attempts
    ∧ (poll_payment_status (fun _ => some "pending") "p1" 100 1 "2099-01-01" none none
        500 none false dbEx).1.countP Event.isSleep = max_attempts
    ∧ (∀ e ∈ (poll_payment_status (fun _ => some "pending") "p1" 100 1 "2099-01-01" none none
        500 none false dbEx).1,
        Event.isCreateBooking e = false ∧ Event.isRefund e = false
          ∧ Event.isCancelPayment e = false)
    ∧ (∀ s, Event.sleep s ∈ (poll_payment_status (fun _ => some "pending") "p1" 100 1 "2099-01-01" none none
        500 none false dbEx).1 → s = delay) :=
  poll_timeout_no_booking (fun _ => some "pending") "p1" 100 1 "2099-01-01" none none
    500 none false dbEx (by decide)

/-! ## C1: a paid booking is created only after a `succeeded` poll -/

/-- In the `succeeded` branch the trail starts with the status check
followed by the `create_booking(paid=True, payment_id=...)` call, and no
further `create_booking` call occurs in the remainder. -/
theorem pollLoop_first_two_succeeded (statusAt : Nat → Option String) (pid : String)
    (tg tid : Nat) (vd : String) (vt : Option String) (du : Option Nat)
    (amount : ℚ) (rubitimeRes : Option Nat) (adminRaises : Bool)
    (fuel i : Nat) (db : DB) (hs : statusAt i = some "succeeded") :
    ∃ rest, (pollLoop statusAt pid tg tid vd vt du amount rubitimeRes adminRaises (fuel + 1) i db).1
        = Event.checkStatus pid (some "succeeded")
            :: Event.createBookingCall true (some pid) :: rest
      ∧ ∀ q r, Event.createBookingCall q r ∉ rest := by
  simp only [pollLoop]
  rw [hs, if_pos rfl]
  split
  · exact ⟨_, rfl, by intro q r; simp⟩
  · split
    · exact ⟨_, rfl, by intro q r; simp⟩
    · exact ⟨_, rfl, by intro q r; simp⟩
    · split
      · exact ⟨_, rfl, by intro q r; simp⟩
      · exact ⟨_, rfl, by intro q r; simp⟩

/-- In the `canceled` branch the trail is the check, the cancellation
edit and the state clear. -/
theorem pollLoop_canceled_events (statusAt : Nat → Option String) (pid : String)
    (tg tid : Nat) (vd : String) (vt : Option String) (du : Option Nat)
    (amount : ℚ) (rubitimeRes : Option Nat) (adminRaises : Bool)
    (fuel i : Nat) (db : DB)
    (h1 : statusAt i ≠ some "succeeded") (h2 : statusAt i = some "canceled") :
    (pollLoop statusAt pid tg tid vd vt du amount rubitimeRes adminRaises (fuel + 1) i db).1
      = [Event.checkStatus pid (statusAt i), Event.editUserMsg canceledText,
         Event.clearState] := by
  simp only [pollLoop]
  rw [if_neg h1, if_pos h2]

/-- In the non-terminal branch the attempt contributes the check and the
sleep, then the loop continues. -/
theorem pollLoop_pending_events (statusAt : Nat → Option String) (pid : String)
    (tg tid : Nat) (vd : String) (vt : Option String) (du : Option Nat)
    (amount : ℚ) (rubitimeRes : Option Nat) (adminRaises : Bool)
    (fuel i : Nat) (db : DB)
    (h1 : statusAt i ≠ some "succeeded") (h2 : statusAt i ≠ some "canceled") :
    (pollLoop statusAt pid tg tid vd vt du amount rubitimeRes adminRaises (fuel + 1) i db).1
      = Event.checkStatus pid (statusAt i) :: Event.sleep delay ::
          (pollLoop statusAt pid tg tid vd vt du amount rubitimeRes adminRaises fuel (i + 1) db).1 := by
  simp only [pollLoop]
  rw [if_neg h1, if_neg h2]

/-- Splitting off the event right after a non-`create_booking` head:
when a `createBookingCall` occurs in a list whose head is not one and
whose tail past the second element contains none, the occurrence is the
second element. -/
theorem second_of_append (e₀ : Event) (rest l₁ l₂ : List Event)
    (pa pa' : Bool) (pmt pmt' : Option String)
    (h : l₁ ++ Event.createBookingCall pa pmt :: l₂
      = e₀ :: Event.createBookingCall pa' pmt' :: rest)
    (h₀ : Event.isCreateBooking e₀ = false)
    (hrest : ∀ q r, Event.createBookingCall q r ∉ rest) :
    pa = pa' ∧ pmt = pmt' ∧ l₁ = [e₀] := by
  cases l₁ with
  | nil =>
    simp only [List.nil_append, List.cons.injEq] at h
    rw [← h.1] at h₀
    simp [Event.isCreateBooking] at h₀
  | cons x l₁' =>
    cases l₁' with
    | nil =>
      simp only [List.cons_append, List.nil_append, List.cons.injEq] at h
      obtain ⟨hx, hcb, -⟩ := h
      obtain ⟨hpa, hpmt⟩ := Event.createBookingCall.inj hcb
      exact ⟨hpa, hpmt, by rw [hx]⟩
    | cons y l₁'' =>
      simp only [List.cons_append, List.cons.injEq] at h
      obtain ⟨-, -, htail⟩ := h
      exact absurd (htail ▸ (by simp : Event.createBookingCall pa pmt
        ∈ l₁'' ++ Event.createBookingCall pa pmt :: l₂)) (hrest pa pmt)

/-- Every `createBookingCall` event emitted by the poll loop has
`paid = true` and the loop's payment id, and is immediately preceded by
the status check that answered `succeeded`. -/
theorem pollLoop_paid_only_after_succeeded (statusAt : Nat → Option String)
    (pid : String) (tg tid : Nat) (vd : String) (vt : Option String)
    (du : Option Nat) (amount : ℚ) (rubitimeRes : Option Nat)
    (adminRaises : Bool) (pa : Bool) (pmt : Option String) :
    ∀ (fuel i : Nat) (db : DB) (l₁ l₂ : List Event),
      (pollLoop statusAt pid tg tid vd vt du amount rubitimeRes adminRaises fuel i db).1
        = l₁ ++ Event.createBookingCall pa pmt :: l₂ →
      pa = true ∧ pmt = some pid
        ∧ l₁.getLast? = some (Event.checkStatus pid (some "succeeded")) := by
  intro fuel
  induction fuel with
  | zero =>
    intro i db l₁ l₂ h
    simp only [pollLoop] at h
    exfalso
    have hm : Event.createBookingCall pa pmt
        ∈ ([Event.editUserMsg timeoutText, Event.clearState] : List Event) := by
      rw [h]; simp
    simp at hm
  | succ n ih =>
    intro i db l₁ l₂ h
    by_cases hs : statusAt i = some "succeeded"
    · obtain ⟨rest, heq, hrest⟩ := pollLoop_first_two_succeeded statusAt pid tg tid
        vd vt du amount rubitimeRes adminRaises n i db hs
      rw [heq] at h
      obtain ⟨hpa, hpmt, hl₁⟩ := second_of_append _ rest l₁ l₂ pa true pmt (some pid)
        h.symm rfl hrest
      exact ⟨hpa, hpmt, by rw [hl₁]; rfl⟩
    · by_cases hc : statusAt i = some "canceled"
      · rw [pollLoop_canceled_events statusAt pid tg tid vd vt du amount rubitimeRes
          adminRaises n i db hs hc] at h
        exfalso
        have hm : Event.createBookingCall pa pmt
            ∈ [Event.checkStatus pid (statusAt i), Event.editUserMsg canceledText,
               Event.clearState] := by
          rw [h]; simp
        simp at hm
      · rw [pollLoop_pending_events statusAt pid tg tid vd vt du amount rubitimeRes
          adminRaises n i db hs hc] at h
        rcases l₁ with _ | ⟨x, l₁'⟩
        · simp at h
        · rcases l₁' with _ | ⟨y, l₁''⟩
          · simp at h
          · simp only [List.cons_append, List.cons.injEq] at h
            obtain ⟨-, -, htr⟩ := h
            obtain ⟨hpa, hpmt, hlast⟩ := ih (i + 1) db l₁'' l₂ htr
            refine ⟨hpa, hpmt, ?_⟩
            rcases l₁'' with _ | ⟨z, l₁'''⟩
            · simp at hlast
            · rw [List.getLast?_cons_cons, List.getLast?_cons_cons]
              exact hlast

/-- C1: whenever the reconciliation loop issues a `create_booking` call,
that call carries `paid = true` together with the stored payment id, and
the event immediately preceding it in the trail is the
`check_payment_status` call that returned `succeeded`. -/
theorem paid_booking_only_after_succeeded (statusAt : Nat → Option String)
    (pid : String) (tg tid : Nat) (vd : String) (vt : Option String)
    (du : Option Nat) (amount : ℚ) (rubitimeRes : Option Nat)
    (adminRaises : Bool) (db : DB) (pa : Bool) (pmt : Option String)
    (l₁ l₂ : List Event)
    (h : (poll_payment_status statusAt pid tg tid vd vt du amount rubitimeRes adminRaises db).1
      = l₁ ++ Event.createBookingCall pa pmt :: l₂) :
    pa = true ∧ pmt = some pid
      ∧ l₁.getLast? = some (Event.checkStatus pid (some "succeeded")) :=
  pollLoop_paid_only_after_succeeded statusAt pid tg tid vd vt du amount
    rubitimeRes adminRaises pa pmt max_attempts 0 db l₁ l₂ h

theorem paid_booking_only_after_succeeded_witness :
    true = true ∧ (some "p1" : Option String) = some "p1"
      ∧ ([Event.checkStatus "p1" (some "succeeded")] : List Event).getLast?
          = some (Event.checkStatus "p1" (some "succeeded")) :=
  paid_booking_only_after_succeeded (fun _ => some "succeeded") "p1" 100 2
    "2099-01-01" none none 0 none true dbEx true (some "p1")
    [Event.checkStatus "p1" (some "succeeded")]
    [Event.rubitimeCall, Event.editUserMsg bookingErrText, Event.clearState]
    (by decide)

end CoWork
